import Mathlib

/-!
# Verification of the OpenMOHAA MCP automation engine

Shallow embedding of the Automation Scripting Engine
(`AutomationFramework` in `src/src/script-validator.ts`, second document)
together with the `ScreenCapture` polling helpers it uses
(`src/unnamed/part_003`).  Collaborator subsystems (process launcher,
console manager, UI controller, raw pixel sampling, template matching)
perform external I/O; they are modelled as oracles collected in an `Env`,
indexed by the number of collaborator calls made so far, so that a fake
collaborator can make any prefix of calls succeed and later ones fail.

JavaScript exceptions are modelled with `Except String`; an engine-thrown
`new Error(msg)` is rendered as the string produced by `String(error)`.
Wall-clock time (`Date.now()`) is a natural-number clock in the engine
state: every collaborator call advances it by an environment-chosen
duration and every `setTimeout`-based delay advances it by the delay.
-/

/-- A JavaScript value as it appears in script parameter maps.
Numbers are rationals (JS numbers in scripts are decimal literals);
`vColor` models the nested `{r,g,b}` colour objects used by pixel
parameters.  `vUndefined` is `undefined`, the result of a missing key. -/
inductive Value where
  | vUndefined : Value
  | vNull : Value
  | vBool (b : Bool) : Value
  | vNum (q : ℚ) : Value
  | vStr (s : String) : Value
  | vColor (r g b : ℚ) : Value
deriving DecidableEq

/-- JS truthiness of a value (NaN is not modelled; numeric `0`, the empty
string, `null` and `undefined` are falsy, objects are truthy). -/
def Value.truthy : Value → Bool
  | .vUndefined => false
  | .vNull => false
  | .vBool b => b
  | .vNum q => q ≠ 0
  | .vStr s => s ≠ ""
  | .vColor _ _ _ => true

/-- JS `a || b`. -/
def Value.orJs (v d : Value) : Value := if v.truthy then v else d

/-- Numeric reading of a value where the source uses it as a `number`.
Non-numeric values read as `none` (JS would produce `NaN` there, and all
the comparisons the engine performs on `NaN` are false; numeric strings
are not modelled, no script in the repository uses them). -/
def Value.toNumQ : Value → Option ℚ
  | .vNum q => some q
  | _ => none

/-- Rendering used when a value is interpolated into an error message or
used as a `Map` key after an `as string` cast. -/
def Value.display : Value → String
  | .vUndefined => "undefined"
  | .vNull => "null"
  | .vBool b => if b then "true" else "false"
  | .vNum q => toString q
  | .vStr s => s
  | .vColor _ _ _ => "[object Object]"

/-- A sampled pixel colour (`PixelColor` in `types.ts`). -/
structure PixelColor where
  r : ℚ
  g : ℚ
  b : ℚ
deriving DecidableEq

/-- `ImageMatchResult` from the screen-capture module. -/
structure ImageMatch where
  found : Bool
  x : ℚ
  y : ℚ
  confidence : ℚ
deriving DecidableEq

/-- Parameter maps `Record<string, unknown>`. -/
abbrev Params := List (String × Value)

/-- Property access `params.k`: `undefined` when the key is absent. -/
def getP (p : Params) (k : String) : Value :=
  match p.lookup k with
  | some v => v
  | none => .vUndefined

/-- `WaitCondition` from `types.ts`.  The type tag is a string: scripts
arrive as untyped JSON and the evaluator dispatches over the tag with a
default case. -/
structure WaitCondition where
  ctype : String
  params : Params
  timeout : ℚ
deriving DecidableEq

/-- `AutomationStep` from `types.ts`. -/
structure AutomationStep where
  action : String
  params : Params
  timeout : Option ℚ := none
  waitAfter : Option ℚ := none
  condition : Option WaitCondition := none
deriving DecidableEq

/-- `AutomationScript` from `types.ts`: `setup` and `teardown` optional. -/
structure AutomationScript where
  name : String
  description : Option String := none
  setup : Option (List AutomationStep) := none
  steps : List AutomationStep
  teardown : Option (List AutomationStep) := none
deriving DecidableEq

/-- `StepResult` from `types.ts`. -/
structure StepResult where
  action : String
  success : Bool
  duration : Nat
  error : Option String := none
deriving DecidableEq

/-- `TestResult` from `types.ts` (the `error` field is never set by the
engine and is omitted). -/
structure TestResult where
  name : String
  passed : Bool
  duration : Nat
  steps : List StepResult
deriving DecidableEq

/-- The mutable fields of one `AutomationFramework` instance, plus the
model clock `time` (`Date.now()`) and the collaborator-call counter
`ncalls` used to index the oracles.  `vars` is the instance's
`variables` map (the source name is a reserved word here), a total map
into `Value`; unset names read `undefined`, exactly what `Map.get`
returns. -/
structure EngineState where
  running : Bool
  aborted : Bool
  stepResults : List StepResult
  vars : String → Value
  time : Nat
  ncalls : Nat

/-- The argument object built by the `launch` action. -/
structure LaunchConfig where
  executablePath : Value
  workingDirectory : Value
  arguments : Value
  windowedMode : Value
  resolution : Option (Value × Value)

/-- Collaborator oracles.  Each function takes the index of the call
(the value of `ncalls` when the call is made) so a fake collaborator can
answer differently on successive calls.  Methods whose source can reject
return `Except String`; methods whose source resolves on every path
(`ConsoleManager.getCvar` via the resolve-only `sendCommand`,
`UIController.findWindow` and the `ScreenCapture` primitives, which catch
internally, and `ProcessLauncher.waitForConsolePattern`, whose promise is
only ever resolved) return plain values.  `primDur` is the wall-clock
duration of each call. -/
structure Env where
  primDur : Nat → Nat
  launch : Nat → LaunchConfig → Except String Unit
  stop : Nat → Except String Unit
  restart : Nat → Except String Unit
  forceKill : Nat → Except String Unit
  isRunning : Nat → Bool
  searchConsole : Nat → Value → Nat → Nat
  waitForConsolePattern : Nat → Value → Nat → Option Value
  sendCommand : Nat → Value → Except String Unit
  setCvar : Nat → Value → Value → Except String Unit
  getCvar : Nat → Value → Option Value
  loadMap : Nat → Value → Except String Unit
  execConfig : Nat → Value → Except String Unit
  moveMouse : Nat → Value → Value → Except String Unit
  moveMouseRelative : Nat → Value → Value → Except String Unit
  moveMouseToWindow : Nat → Value → Value → Except String Unit
  clickMouse : Nat → Value → Except String Unit
  clickAt : Nat → Value → Value → Value → Except String Unit
  doubleClick : Nat → Value → Except String Unit
  drag : Nat → Value → Value → Value → Value → Value → Except String Unit
  scroll : Nat → Value → Value → Except String Unit
  typeText : Nat → Value → Value → Except String Unit
  pressKey : Nat → Value → Except String Unit
  pressKeyWithModifiers : Nat → Value → Value → Except String Unit
  sendKeyCombo : Nat → Value → Except String Unit
  toggleConsole : Nat → Except String Unit
  focusWindow : Nat → Except String Unit
  findWindow : Nat → Value → Option Value
  saveScreenshot : Nat → Value → Bool
  getPixelColor : Nat → Value → Value → Option PixelColor
  findImage : Nat → Value → Value → Value → ImageMatch

/-- Bookkeeping after one collaborator call: the call counter advances
and the clock advances by the call's duration. -/
def tick (env : Env) (s : EngineState) : EngineState :=
  { s with ncalls := s.ncalls + 1, time := s.time + env.primDur s.ncalls }

/-- `setTimeout`-based delay of `ms` milliseconds. -/
def delay (ms : Nat) (s : EngineState) : EngineState :=
  { s with time := s.time + ms }

/-- `String(error)` for an engine-thrown `new Error(msg)`. -/
def jsError (msg : String) : String := "Error: " ++ msg

/-- A millisecond count handed to `setTimeout` (truncated to a
non-negative integer; a non-numeric value behaves like `NaN`, which
`setTimeout` treats as `0`). -/
def toDelayNat (v : Value) : Nat :=
  match v.toNumQ with
  | some q => (⌊q⌋).toNat
  | none => 0

/-- A millisecond budget compared against `Date.now() - startTime`.
For a natural-number clock, `elapsed < q` over ℚ is `elapsed < ⌈q⌉` over
ℕ (non-positive and `NaN` budgets make the loop exit at once, hence 0). -/
def toTimeoutNat (v : Value) : Nat :=
  match v.toNumQ with
  | some q => (⌈q⌉).toNat
  | none => 0

namespace ScreenCapture

/-- `ScreenCapture.checkPixelColor` (part_003, lines 282-298): sample the
pixel, return `false` when sampling fails, otherwise compare each channel
difference against the tolerance independently.  The fall-through branch
covers parameter shapes for which the JS comparisons involve `NaN` (and
the malformed-script case of a missing `expected` object, which no script
in the repository produces). -/
def checkPixelColor (env : Env) (x y expected tolerance : Value)
    (s : EngineState) : Bool × EngineState :=
  let actual := env.getPixelColor s.ncalls x y
  let s1 := tick env s
  match actual, expected, tolerance.toNumQ with
  | none, _, _ => (false, s1)
  | some a, .vColor er eg eb, some tol =>
      (decide (|a.r - er| ≤ tol ∧ |a.g - eg| ≤ tol ∧ |a.b - eb| ≤ tol), s1)
  | some _, _, _ => (false, s1)

theorem checkPixelColor_state (env : Env) (x y e t : Value) (s : EngineState) :
    (checkPixelColor env x y e t s).2 = tick env s := by
  unfold checkPixelColor
  dsimp only
  split <;> rfl

theorem checkPixelColor_time (env : Env) (x y e t : Value) (s : EngineState) :
    (checkPixelColor env x y e t s).2.time = s.time + env.primDur s.ncalls := by
  rw [checkPixelColor_state]; rfl

/-- The polling loop of `ScreenCapture.waitForPixelColor` (part_003,
lines 303-321): `while (Date.now() - startTime < timeout)` re-check the
pixel every 200 ms. -/
def waitPixelLoop (env : Env) (x y expected tolerance : Value)
    (timeout start : Nat) (s : EngineState) : Bool × EngineState :=
  if s.time - start < timeout then
    let r := checkPixelColor env x y expected tolerance s
    if r.1 then (true, r.2)
    else waitPixelLoop env x y expected tolerance timeout start (delay 200 r.2)
  else (false, s)
termination_by timeout + start - s.time
decreasing_by
  simp only [delay]
  have h1 := checkPixelColor_time env x y expected tolerance s
  omega

/-- `ScreenCapture.waitForPixelColor(x, y, expected, timeout, tolerance)`:
poll until the pixel matches or the timeout elapses; resolves `false` on
timeout, never rejects. -/
def waitForPixelColor (env : Env) (x y expected : Value) (timeout : Nat)
    (tolerance : Value) (s : EngineState) : Bool × EngineState :=
  waitPixelLoop env x y expected tolerance timeout s.time s

/-- The polling loop of `ScreenCapture.waitForImage` (part_003, lines
401-417): re-run `findImage` every 500 ms until found or timed out. -/
def waitImageLoop (env : Env) (template threshold : Value)
    (timeout start : Nat) (s : EngineState) : ImageMatch × EngineState :=
  if s.time - start < timeout then
    let r := env.findImage s.ncalls template .vUndefined threshold
    let s1 := tick env s
    if r.found then (r, s1)
    else waitImageLoop env template threshold timeout start (delay 500 s1)
  else (⟨false, 0, 0, 0⟩, s)
termination_by timeout + start - s.time
decreasing_by
  simp only [delay, tick]
  omega

/-- `ScreenCapture.waitForImage`: resolves `{found: false, …}` on
timeout, never rejects. -/
def waitForImage (env : Env) (template : Value) (timeout : Nat)
    (threshold : Value) (s : EngineState) : ImageMatch × EngineState :=
  waitImageLoop env template threshold timeout s.time s

end ScreenCapture

namespace AutomationFramework

/-- `AutomationFramework.checkCondition` (script-validator.ts, lines
724-759): dispatch on the condition's type tag; `timeout` conditions are
always met, unrecognized tags never are. -/
def checkCondition (env : Env) (c : WaitCondition) (s : EngineState) :
    Bool × EngineState :=
  match c.ctype with
  | "console_pattern" =>
      let n := env.searchConsole s.ncalls (getP c.params "pattern") 100
      (decide (0 < n), tick env s)
  | "pixel_color" =>
      ScreenCapture.checkPixelColor env (getP c.params "x") (getP c.params "y")
        (getP c.params "expected") ((getP c.params "tolerance").orJs (.vNum 10)) s
  | "cvar_value" =>
      let cv := env.getCvar s.ncalls (getP c.params "name")
      (decide (cv.getD .vUndefined = getP c.params "expected"), tick env s)
  | "window_exists" =>
      let w := env.findWindow s.ncalls (getP c.params "title")
      (w.isSome, tick env s)
  | "timeout" => (true, s)
  | _ => (false, s)

theorem checkCondition_time (env : Env) (c : WaitCondition) (s : EngineState) :
    s.time ≤ (checkCondition env c s).2.time := by
  unfold checkCondition
  split
  · simp [tick]
  · rw [ScreenCapture.checkPixelColor_time]; omega
  · simp [tick]
  · simp [tick]
  · exact Nat.le_refl _
  · exact Nat.le_refl _

/-- `condition.timeout || 30000` as a natural-number millisecond budget
(see `toTimeoutNat` for the ceiling). -/
def condTimeout (c : WaitCondition) : Nat :=
  if c.timeout = 0 then 30000 else (⌈c.timeout⌉).toNat

/-- The polling loop of `AutomationFramework.waitForCondition`
(script-validator.ts, lines 706-719): check, then sleep 200 ms, until the
condition holds or `timeout` has elapsed. -/
def waitLoop (env : Env) (c : WaitCondition) (timeout start : Nat)
    (s : EngineState) : Bool × EngineState :=
  if s.time - start < timeout then
    let r := checkCondition env c s
    if r.1 then (true, r.2)
    else waitLoop env c timeout start (delay 200 r.2)
  else (false, s)
termination_by timeout + start - s.time
decreasing_by
  simp only [delay]
  have h1 := checkCondition_time env c s
  omega

/-- `AutomationFramework.waitForCondition`. -/
def waitForCondition (env : Env) (c : WaitCondition) (s : EngineState) :
    Bool × EngineState :=
  waitLoop env c (condTimeout c) s.time s

end AutomationFramework

/-- Write one entry of the `variables` map (`Map.set`; keys are the
`as string`-cast parameter values). -/
def setVarKey (s : EngineState) (k : String) (v : Value) : EngineState :=
  { s with vars := fun n => if n = k then v else s.vars n }

namespace AutomationFramework

/-- `AutomationFramework.executeAction` (script-validator.ts, lines
466-701): dispatch the action tag to the corresponding collaborator
call, threading `params` values through unchanged; unknown tags throw
`Unknown action`. -/
def executeAction (env : Env) (action : String) (params : Params)
    (s : EngineState) : Except String Unit × EngineState :=
  match action with
  | "launch" =>
      (env.launch s.ncalls
        { executablePath := getP params "executablePath"
          workingDirectory := getP params "workingDirectory"
          arguments := getP params "args"
          windowedMode := getP params "windowed"
          resolution :=
            if (getP params "width").truthy && (getP params "height").truthy then
              some (getP params "width", getP params "height")
            else none },
       tick env s)
  | "stop" => (env.stop s.ncalls, tick env s)
  | "restart" => (env.restart s.ncalls, tick env s)
  | "kill" => (env.forceKill s.ncalls, tick env s)
  | "command" => (env.sendCommand s.ncalls (getP params "command"), tick env s)
  | "set_cvar" =>
      (env.setCvar s.ncalls (getP params "name") (getP params "value"), tick env s)
  | "get_cvar" =>
      let cv := env.getCvar s.ncalls (getP params "name")
      let s1 := tick env s
      if (getP params "storeAs").truthy then
        (.ok (), setVarKey s1 (getP params "storeAs").display (cv.getD .vUndefined))
      else (.ok (), s1)
  | "load_map" => (env.loadMap s.ncalls (getP params "map"), tick env s)
  | "exec_config" => (env.execConfig s.ncalls (getP params "path"), tick env s)
  | "mouse_move" =>
      if (getP params "relative").truthy then
        (env.moveMouseRelative s.ncalls (getP params "x") (getP params "y"), tick env s)
      else if (getP params "window").truthy then
        (env.moveMouseToWindow s.ncalls (getP params "x") (getP params "y"), tick env s)
      else
        (env.moveMouse s.ncalls (getP params "x") (getP params "y"), tick env s)
  | "mouse_click" =>
      if getP params "x" ≠ Value.vUndefined ∧ getP params "y" ≠ Value.vUndefined then
        (env.clickAt s.ncalls (getP params "x") (getP params "y")
          ((getP params "button").orJs (.vStr "left")), tick env s)
      else
        (env.clickMouse s.ncalls ((getP params "button").orJs (.vStr "left")), tick env s)
  | "double_click" =>
      (env.doubleClick s.ncalls ((getP params "button").orJs (.vStr "left")), tick env s)
  | "drag" =>
      (env.drag s.ncalls (getP params "startX") (getP params "startY")
        (getP params "endX") (getP params "endY")
        ((getP params "button").orJs (.vStr "left")), tick env s)
  | "scroll" =>
      (env.scroll s.ncalls (getP params "direction")
        ((getP params "clicks").orJs (.vNum 3)), tick env s)
  | "type" =>
      (env.typeText s.ncalls (getP params "text") (getP params "delay"), tick env s)
  | "press_key" =>
      if (getP params "modifiers").truthy then
        (env.pressKeyWithModifiers s.ncalls (getP params "key")
          (getP params "modifiers"), tick env s)
      else (env.pressKey s.ncalls (getP params "key"), tick env s)
  | "key_combo" => (env.sendKeyCombo s.ncalls (getP params "combo"), tick env s)
  | "toggle_console" => (env.toggleConsole s.ncalls, tick env s)
  | "focus_window" => (env.focusWindow s.ncalls, tick env s)
  | "screenshot" =>
      let r := env.saveScreenshot s.ncalls (getP params "path")
      let s1 := tick env s
      if r then (.ok (), s1)
      else (.error (jsError "Failed to save screenshot"), s1)
  | "check_pixel" =>
      let m := ScreenCapture.checkPixelColor env (getP params "x") (getP params "y")
        (getP params "expected") ((getP params "tolerance").orJs (.vNum 10)) s
      if m.1 then (.ok (), m.2)
      else
        (.error (jsError ("Pixel color mismatch at " ++ (getP params "x").display
          ++ "," ++ (getP params "y").display)), m.2)
  | "find_image" =>
      let m := env.findImage s.ncalls (getP params "template") (getP params "region")
        ((getP params "threshold").orJs (.vNum 0.9))
      let s1 := tick env s
      if !m.found then
        (.error (jsError ("Image not found: " ++ (getP params "template").display)), s1)
      else
        let s2 := if (getP params "storeX").truthy then
            setVarKey s1 (getP params "storeX").display (.vNum m.x) else s1
        let s3 := if (getP params "storeY").truthy then
            setVarKey s2 (getP params "storeY").display (.vNum m.y) else s2
        (.ok (), s3)
  | "wait" =>
      (.ok (), delay (toDelayNat ((getP params "ms").orJs (.vNum 1000))) s)
  | "wait_for_console" =>
      let _ := env.waitForConsolePattern s.ncalls (getP params "pattern")
        (toTimeoutNat ((getP params "timeout").orJs (.vNum 30000)))
      (.ok (), tick env s)
  | "wait_for_pixel" =>
      let r := ScreenCapture.waitForPixelColor env (getP params "x") (getP params "y")
        (getP params "expected")
        (toTimeoutNat ((getP params "timeout").orJs (.vNum 30000)))
        ((getP params "tolerance").orJs (.vNum 10)) s
      (.ok (), r.2)
  | "wait_for_image" =>
      let r := ScreenCapture.waitForImage env (getP params "template")
        (toTimeoutNat ((getP params "timeout").orJs (.vNum 30000)))
        ((getP params "threshold").orJs (.vNum 0.9)) s
      if !r.1.found then
        (.error (jsError ("Image not found: " ++ (getP params "template").display)), r.2)
      else (.ok (), r.2)
  | "assert" =>
      let value := s.vars (getP params "variable").display
      if value ≠ getP params "expected" then
        (.error (jsError ("Assertion failed: " ++ (getP params "variable").display
          ++ " = " ++ value.display ++ ", expected "
          ++ (getP params "expected").display)), s)
      else (.ok (), s)
  | "assert_running" =>
      let r := env.isRunning s.ncalls
      let s1 := tick env s
      if !r then (.error (jsError "Game is not running"), s1)
      else (.ok (), s1)
  | "assert_not_running" =>
      let r := env.isRunning s.ncalls
      let s1 := tick env s
      if r then (.error (jsError "Game is still running"), s1)
      else (.ok (), s1)
  | "set_variable" =>
      (.ok (), setVarKey s (getP params "name").display (getP params "value"))
  | "log" => (.ok (), s)
  | _ => (.error (jsError ("Unknown action: " ++ action)), s)

/-- The message of the `Condition not met` error thrown by `executeStep`
(the JSON rendering of the condition is abbreviated to its type tag; no
claim inspects the message body). -/
def condNotMet (c : WaitCondition) : String :=
  jsError ("Condition not met: " ++ c.ctype)

/-- `AutomationFramework.executeStep` (script-validator.ts, lines
419-461): run the action; on success apply the optional `waitAfter`
delay, then the optional condition wait; record exactly one `StepResult`
on every path and re-throw failures to the phase loop. -/
def executeStep (env : Env) (step : AutomationStep) (s : EngineState) :
    Except String StepResult × EngineState :=
  let startTime := s.time
  match executeAction env step.action step.params s with
  | (.error e, s1) =>
      let r : StepResult := { action := step.action, success := false,
                              duration := s1.time - startTime, error := some e }
      (.error e, { s1 with stepResults := s1.stepResults ++ [r] })
  | (.ok _, s1) =>
      let s2 := match step.waitAfter with
        | some w => if w ≠ 0 then delay ((⌊w⌋).toNat) s1 else s1
        | none => s1
      match step.condition with
      | some c =>
          let m := waitForCondition env c s2
          if m.1 then
            let r : StepResult := { action := step.action, success := true,
                                    duration := m.2.time - startTime }
            (.ok r, { m.2 with stepResults := m.2.stepResults ++ [r] })
          else
            let r : StepResult := { action := step.action, success := false,
                                    duration := m.2.time - startTime,
                                    error := some (condNotMet c) }
            (.error (condNotMet c), { m.2 with stepResults := m.2.stepResults ++ [r] })
      | none =>
          let r : StepResult := { action := step.action, success := true,
                                  duration := s2.time - startTime }
          (.ok r, { s2 with stepResults := s2.stepResults ++ [r] })

/-- One `setup`/`steps` phase loop (script-validator.ts, lines 366-378):
before each entry the abort flag is checked; a thrown step error
propagates to the caller. -/
def runPhase (env : Env) : List AutomationStep → EngineState →
    Except String Unit × EngineState
  | [], s => (.ok (), s)
  | step :: rest, s =>
    if s.aborted then (.ok (), s)
    else
      match executeStep env step s with
      | (.error e, s1) => (.error e, s1)
      | (.ok _, s1) => runPhase env rest s1

/-- The teardown loop (script-validator.ts, lines 391-397): every entry
runs inside its own `try`/`catch`, so a throwing entry never prevents
the next one; the abort flag is not consulted. -/
def runTeardown (env : Env) : List AutomationStep → EngineState → EngineState
  | [], s => s
  | step :: rest, s => runTeardown env rest (executeStep env step s).2

/-- The `try` block of `runScript` (script-validator.ts, lines 362-379):
the setup phase (when present and non-empty), then — unless the abort
flag is set — the main phase. -/
def runBody (env : Env) (script : AutomationScript) (s : EngineState) :
    Except String Unit × EngineState :=
  let afterSetup : Except String Unit × EngineState :=
    match script.setup with
    | some setup => if 0 < setup.length then runPhase env setup s else (.ok (), s)
    | none => (.ok (), s)
  match afterSetup with
  | (.ok _, s1) => if !s1.aborted then runPhase env script.steps s1 else (.ok (), s1)
  | (.error e, s1) => (.error e, s1)

/-- The `catch` block of `runScript` (script-validator.ts, lines
380-386): a thrown setup/steps error becomes a synthetic `"error"`
StepResult. -/
def recordError : Except String Unit × EngineState → EngineState
  | (.error e, s1) =>
      { s1 with stepResults := s1.stepResults ++
          [{ action := "error", success := false, duration := 0, error := some e }] }
  | (.ok _, s1) => s1

/-- The `finally` block of `runScript` (script-validator.ts, lines
387-399): run teardown when present and non-empty. -/
def runTeardownOpt (env : Env) (td : Option (List AutomationStep))
    (s : EngineState) : EngineState :=
  match td with
  | some l => if 0 < l.length then runTeardown env l s else s
  | none => s

/-- The `try`/`catch`/`finally` body of `runScript` (script-validator.ts,
lines 362-399). -/
def runPhases (env : Env) (script : AutomationScript) (s : EngineState) :
    EngineState :=
  runTeardownOpt env script.teardown (recordError (runBody env script s))

/-- `AutomationFramework.runScript` (script-validator.ts, lines 353-414):
reset the per-run state (but not `variables`), run the phases, and
return a `TestResult` that passes iff every recorded StepResult
succeeded.  Total: no exception escapes. -/
def runScript (env : Env) (script : AutomationScript) (s0 : EngineState) :
    TestResult × EngineState :=
  let s := { s0 with running := true, aborted := false, stepResults := [] }
  let startTime := s.time
  let s1 := runPhases env script s
  let s2 := { s1 with running := false }
  ({ name := script.name, passed := s2.stepResults.all (·.success),
     duration := s2.time - startTime, steps := s2.stepResults }, s2)

/-- `AutomationFramework.abort` (lines 764-767): set the abort flag. -/
def abort (s : EngineState) : EngineState := { s with aborted := true }

/-- `AutomationFramework.isRunning`. -/
def isRunning (s : EngineState) : Bool := s.running

/-- `AutomationFramework.getStepResults`. -/
def getStepResults (s : EngineState) : List StepResult := s.stepResults

/-- `AutomationFramework.getVariable`. -/
def getVariable (s : EngineState) (name : String) : Value := s.vars name

/-- `AutomationFramework.setVariable`. -/
def setVariable (s : EngineState) (name : String) (v : Value) : EngineState :=
  setVarKey s name v

/-- `AutomationFramework.clearVariables` (`Map.clear`). -/
def clearVariables (s : EngineState) : EngineState :=
  { s with vars := fun _ => .vUndefined }

end AutomationFramework

/-! ## Preservation lemmas

The condition-evaluation layer only reads collaborator state: it never
touches the result list, the variables map, or the run/abort flags. -/

/-- `t` agrees with `s` on everything except the clock and call counter. -/
def Quiet (s t : EngineState) : Prop :=
  t.running = s.running ∧ t.aborted = s.aborted ∧
  t.stepResults = s.stepResults ∧ t.vars = s.vars

theorem quiet_refl (s : EngineState) : Quiet s s := ⟨rfl, rfl, rfl, rfl⟩

theorem quiet_trans {a b c : EngineState} (h1 : Quiet a b) (h2 : Quiet b c) :
    Quiet a c :=
  ⟨h2.1.trans h1.1, h2.2.1.trans h1.2.1, h2.2.2.1.trans h1.2.2.1,
   h2.2.2.2.trans h1.2.2.2⟩

theorem quiet_tick (env : Env) (s : EngineState) : Quiet s (tick env s) :=
  ⟨rfl, rfl, rfl, rfl⟩

theorem quiet_delay (ms : Nat) (s : EngineState) : Quiet s (delay ms s) :=
  ⟨rfl, rfl, rfl, rfl⟩

theorem checkPixelColor_quiet (env : Env) (x y e t : Value) (s : EngineState) :
    Quiet s (ScreenCapture.checkPixelColor env x y e t s).2 := by
  rw [ScreenCapture.checkPixelColor_state]
  exact quiet_tick env s

theorem waitPixelLoop_quiet (env : Env) (x y e tol : Value)
    (timeout start : Nat) (s : EngineState) :
    Quiet s (ScreenCapture.waitPixelLoop env x y e tol timeout start s).2 := by
  induction s using ScreenCapture.waitPixelLoop.induct env x y e tol timeout start with
  | case1 s h r hr =>
      have hr' : (ScreenCapture.checkPixelColor env x y e tol s).1 = true := hr
      rw [ScreenCapture.waitPixelLoop]
      simp only [h, if_pos, hr', if_true]
      exact checkPixelColor_quiet env x y e tol s
  | case2 s h r hr ih =>
      have hr' : (ScreenCapture.checkPixelColor env x y e tol s).1 = false :=
        Bool.eq_false_iff.mpr hr
      rw [ScreenCapture.waitPixelLoop]
      simp only [h, if_pos, hr', Bool.false_eq_true, if_false]
      exact quiet_trans (quiet_trans (checkPixelColor_quiet env x y e tol s)
        (quiet_delay 200 _)) ih
  | case3 s h =>
      rw [ScreenCapture.waitPixelLoop]
      simp only [h, if_neg]
      exact quiet_refl s

theorem waitImageLoop_quiet (env : Env) (template threshold : Value)
    (timeout start : Nat) (s : EngineState) :
    Quiet s (ScreenCapture.waitImageLoop env template threshold timeout start s).2 := by
  induction s using ScreenCapture.waitImageLoop.induct env template threshold timeout start with
  | case1 s h r hr =>
      have hr' : (env.findImage s.ncalls template Value.vUndefined threshold).found = true := hr
      rw [ScreenCapture.waitImageLoop]
      simp only [h, if_pos, hr', if_true]
      exact quiet_tick env s
  | case2 s h r s1 hr ih =>
      have hr' : (env.findImage s.ncalls template Value.vUndefined threshold).found = false :=
        Bool.eq_false_iff.mpr hr
      rw [ScreenCapture.waitImageLoop]
      simp only [h, if_pos, hr', Bool.false_eq_true, if_false]
      exact quiet_trans (quiet_trans (quiet_tick env s) (quiet_delay 500 _)) ih
  | case3 s h =>
      rw [ScreenCapture.waitImageLoop]
      simp only [h, if_neg]
      exact quiet_refl s

theorem checkCondition_quiet (env : Env) (c : WaitCondition) (s : EngineState) :
    Quiet s (AutomationFramework.checkCondition env c s).2 := by
  unfold AutomationFramework.checkCondition
  split
  · exact quiet_tick env s
  · exact checkPixelColor_quiet env _ _ _ _ s
  · exact quiet_tick env s
  · exact quiet_tick env s
  · exact quiet_refl s
  · exact quiet_refl s

theorem waitLoop_quiet (env : Env) (c : WaitCondition) (timeout start : Nat)
    (s : EngineState) :
    Quiet s (AutomationFramework.waitLoop env c timeout start s).2 := by
  induction s using AutomationFramework.waitLoop.induct env c timeout start with
  | case1 s h r hr =>
      have hr' : (AutomationFramework.checkCondition env c s).1 = true := hr
      rw [AutomationFramework.waitLoop]
      simp only [h, if_pos, hr', if_true]
      exact checkCondition_quiet env c s
  | case2 s h r hr ih =>
      have hr' : (AutomationFramework.checkCondition env c s).1 = false :=
        Bool.eq_false_iff.mpr hr
      rw [AutomationFramework.waitLoop]
      simp only [h, if_pos, hr', Bool.false_eq_true, if_false]
      exact quiet_trans (quiet_trans (checkCondition_quiet env c s)
        (quiet_delay 200 _)) ih
  | case3 s h =>
      rw [AutomationFramework.waitLoop]
      simp only [h, if_neg]
      exact quiet_refl s

theorem waitForCondition_quiet (env : Env) (c : WaitCondition) (s : EngineState) :
    Quiet s (AutomationFramework.waitForCondition env c s).2 :=
  waitLoop_quiet env c _ _ s

theorem waitForCondition_running (env : Env) (c : WaitCondition) (s : EngineState) :
    (AutomationFramework.waitForCondition env c s).2.running = s.running :=
  (waitForCondition_quiet env c s).1

theorem waitForCondition_aborted (env : Env) (c : WaitCondition) (s : EngineState) :
    (AutomationFramework.waitForCondition env c s).2.aborted = s.aborted :=
  (waitForCondition_quiet env c s).2.1

theorem waitForCondition_stepResults (env : Env) (c : WaitCondition) (s : EngineState) :
    (AutomationFramework.waitForCondition env c s).2.stepResults = s.stepResults :=
  (waitForCondition_quiet env c s).2.2.1

theorem waitForCondition_vars (env : Env) (c : WaitCondition) (s : EngineState) :
    (AutomationFramework.waitForCondition env c s).2.vars = s.vars :=
  (waitForCondition_quiet env c s).2.2.2

theorem waitForPixelColor_running (env : Env) (x y e : Value) (timeout : Nat)
    (tol : Value) (s : EngineState) :
    (ScreenCapture.waitForPixelColor env x y e timeout tol s).2.running = s.running :=
  (waitPixelLoop_quiet env x y e tol timeout s.time s).1

theorem waitForPixelColor_aborted (env : Env) (x y e : Value) (timeout : Nat)
    (tol : Value) (s : EngineState) :
    (ScreenCapture.waitForPixelColor env x y e timeout tol s).2.aborted = s.aborted :=
  (waitPixelLoop_quiet env x y e tol timeout s.time s).2.1

theorem waitForPixelColor_stepResults (env : Env) (x y e : Value) (timeout : Nat)
    (tol : Value) (s : EngineState) :
    (ScreenCapture.waitForPixelColor env x y e timeout tol s).2.stepResults = s.stepResults :=
  (waitPixelLoop_quiet env x y e tol timeout s.time s).2.2.1

theorem waitForPixelColor_vars (env : Env) (x y e : Value) (timeout : Nat)
    (tol : Value) (s : EngineState) :
    (ScreenCapture.waitForPixelColor env x y e timeout tol s).2.vars = s.vars :=
  (waitPixelLoop_quiet env x y e tol timeout s.time s).2.2.2

theorem waitForImage_running (env : Env) (template : Value) (timeout : Nat)
    (threshold : Value) (s : EngineState) :
    (ScreenCapture.waitForImage env template timeout threshold s).2.running = s.running :=
  (waitImageLoop_quiet env template threshold timeout s.time s).1

theorem waitForImage_aborted (env : Env) (template : Value) (timeout : Nat)
    (threshold : Value) (s : EngineState) :
    (ScreenCapture.waitForImage env template timeout threshold s).2.aborted = s.aborted :=
  (waitImageLoop_quiet env template threshold timeout s.time s).2.1

theorem waitForImage_stepResults (env : Env) (template : Value) (timeout : Nat)
    (threshold : Value) (s : EngineState) :
    (ScreenCapture.waitForImage env template timeout threshold s).2.stepResults = s.stepResults :=
  (waitImageLoop_quiet env template threshold timeout s.time s).2.2.1

theorem waitForImage_vars (env : Env) (template : Value) (timeout : Nat)
    (threshold : Value) (s : EngineState) :
    (ScreenCapture.waitForImage env template timeout threshold s).2.vars = s.vars :=
  (waitImageLoop_quiet env template threshold timeout s.time s).2.2.2

/-- `executeAction` touches only `variables` (for the three
variable-writing actions), the clock and the call counter: the result
list and the run/abort flags are left alone on every branch. -/
theorem executeAction_ctrl (env : Env) (a : String) (p : Params) (s : EngineState) :
    (AutomationFramework.executeAction env a p s).2.running = s.running ∧
    (AutomationFramework.executeAction env a p s).2.aborted = s.aborted ∧
    (AutomationFramework.executeAction env a p s).2.stepResults = s.stepResults := by
  unfold AutomationFramework.executeAction
  dsimp only
  repeat' split
  all_goals refine ⟨?_, ?_, ?_⟩
  all_goals
    simp [tick, delay, setVarKey, ScreenCapture.checkPixelColor_state,
      waitForPixelColor_running, waitForPixelColor_aborted, waitForPixelColor_stepResults,
      waitForImage_running, waitForImage_aborted, waitForImage_stepResults]

theorem executeAction_running (env : Env) (a : String) (p : Params) (s : EngineState) :
    (AutomationFramework.executeAction env a p s).2.running = s.running :=
  (executeAction_ctrl env a p s).1

theorem executeAction_aborted (env : Env) (a : String) (p : Params) (s : EngineState) :
    (AutomationFramework.executeAction env a p s).2.aborted = s.aborted :=
  (executeAction_ctrl env a p s).2.1

theorem executeAction_stepResults (env : Env) (a : String) (p : Params) (s : EngineState) :
    (AutomationFramework.executeAction env a p s).2.stepResults = s.stepResults :=
  (executeAction_ctrl env a p s).2.2

/-- Only `get_cvar` (with `storeAs`), `find_image` (with
`storeX`/`storeY`) and `set_variable` write the `variables` map. -/
theorem executeAction_vars (env : Env) (a : String) (p : Params) (s : EngineState)
    (h1 : a ≠ "get_cvar") (h2 : a ≠ "find_image") (h3 : a ≠ "set_variable") :
    (AutomationFramework.executeAction env a p s).2.vars = s.vars := by
  unfold AutomationFramework.executeAction
  dsimp only
  repeat' split
  all_goals
    simp_all [tick, delay, setVarKey, ScreenCapture.checkPixelColor_state,
      waitForPixelColor_vars, waitForImage_vars]

theorem executeStep_aborted (env : Env) (step : AutomationStep) (s : EngineState) :
    (AutomationFramework.executeStep env step s).2.aborted = s.aborted := by
  have h := executeAction_aborted env step.action step.params s
  unfold AutomationFramework.executeStep
  dsimp only
  repeat' split
  all_goals simp_all [delay, waitForCondition_aborted]

theorem executeStep_running (env : Env) (step : AutomationStep) (s : EngineState) :
    (AutomationFramework.executeStep env step s).2.running = s.running := by
  have h := executeAction_running env step.action step.params s
  unfold AutomationFramework.executeStep
  dsimp only
  repeat' split
  all_goals simp_all [delay, waitForCondition_running]

theorem executeStep_vars (env : Env) (step : AutomationStep) (s : EngineState)
    (h1 : step.action ≠ "get_cvar") (h2 : step.action ≠ "find_image")
    (h3 : step.action ≠ "set_variable") :
    (AutomationFramework.executeStep env step s).2.vars = s.vars := by
  have h := executeAction_vars env step.action step.params s h1 h2 h3
  unfold AutomationFramework.executeStep
  dsimp only
  repeat' split
  all_goals simp_all [delay, waitForCondition_vars]

/-- Every call to `executeStep` appends exactly one `StepResult`, whose
`action` field names the step's action — on the success path and on
every failure path alike. -/
theorem executeStep_record (env : Env) (step : AutomationStep) (s : EngineState) :
    ∃ r : StepResult,
      (AutomationFramework.executeStep env step s).2.stepResults
        = s.stepResults ++ [r] ∧ r.action = step.action := by
  have h := executeAction_stepResults env step.action step.params s
  unfold AutomationFramework.executeStep
  dsimp only
  repeat' split
  all_goals simp_all [delay, waitForCondition_stepResults]

theorem runPhase_nil (env : Env) (s : EngineState) :
    AutomationFramework.runPhase env [] s = (.ok (), s) := rfl

/-- With the abort flag set, a `setup`/`steps` phase executes zero
entries: the loop breaks before the first step. -/
theorem runPhase_of_aborted (env : Env) (l : List AutomationStep)
    (s : EngineState) (h : s.aborted = true) :
    AutomationFramework.runPhase env l s = (.ok (), s) := by
  cases l with
  | nil => rfl
  | cons st rest =>
      unfold AutomationFramework.runPhase
      simp [h]

theorem runPhase_cons (env : Env) (st : AutomationStep)
    (rest : List AutomationStep) (s : EngineState) (hab : s.aborted = false) :
    AutomationFramework.runPhase env (st :: rest) s =
      match AutomationFramework.executeStep env st s with
      | (.error e, s1) => (.error e, s1)
      | (.ok _, s1) => AutomationFramework.runPhase env rest s1 := by
  conv_lhs => unfold AutomationFramework.runPhase
  simp [hab]

theorem runPhase_aborted (env : Env) (l : List AutomationStep) (s : EngineState) :
    (AutomationFramework.runPhase env l s).2.aborted = s.aborted := by
  induction l generalizing s with
  | nil => rfl
  | cons st rest ih =>
      cases hab : s.aborted with
      | true => rw [runPhase_of_aborted env _ s hab]; exact hab
      | false =>
          rw [runPhase_cons env st rest s hab]
          have ha := executeStep_aborted env st s
          rcases hstep : AutomationFramework.executeStep env st s with ⟨r1, s1⟩
          rw [hstep] at ha
          cases r1 with
          | error e => exact ha.trans hab
          | ok r =>
              show (AutomationFramework.runPhase env rest s1).2.aborted = false
              rw [ih s1]
              exact ha.trans hab

theorem runPhase_append (env : Env) (pre rest : List AutomationStep)
    (s : EngineState) (hab : s.aborted = false)
    (hok : (AutomationFramework.runPhase env pre s).1 = .ok ()) :
    AutomationFramework.runPhase env (pre ++ rest) s =
      AutomationFramework.runPhase env rest (AutomationFramework.runPhase env pre s).2 := by
  induction pre generalizing s with
  | nil => rfl
  | cons st pre ih =>
      rw [runPhase_cons env st pre s hab] at hok
      rw [List.cons_append, runPhase_cons env st (pre ++ rest) s hab,
          runPhase_cons env st pre s hab]
      have ha := executeStep_aborted env st s
      rcases hstep : AutomationFramework.executeStep env st s with ⟨r1, s1⟩
      rw [hstep] at ha hok
      cases r1 with
      | error e => simp at hok
      | ok r =>
          show AutomationFramework.runPhase env (pre ++ rest) s1 =
            AutomationFramework.runPhase env rest (AutomationFramework.runPhase env pre s1).2
          exact ih s1 (ha.trans hab) hok

/-- Every teardown entry produces exactly one `StepResult`, in order,
whatever the engine state (including an already-set abort flag) and
whether or not individual entries throw. -/
theorem runTeardown_record (env : Env) (l : List AutomationStep) (s : EngineState) :
    ∃ rs : List StepResult,
      (AutomationFramework.runTeardown env l s).stepResults = s.stepResults ++ rs ∧
      rs.length = l.length ∧
      ∀ p ∈ rs.zip l, p.1.action = p.2.action := by
  induction l generalizing s with
  | nil => exact ⟨[], by simp [AutomationFramework.runTeardown], rfl, by simp⟩
  | cons st rest ih =>
      obtain ⟨r, hr, hra⟩ := executeStep_record env st s
      obtain ⟨rs, hrs, hlen, hzip⟩ := ih (AutomationFramework.executeStep env st s).2
      refine ⟨r :: rs, ?_, ?_, ?_⟩
      · unfold AutomationFramework.runTeardown
        rw [hrs, hr]
        simp
      · simp [hlen]
      · intro p hp
        simp only [List.zip_cons_cons, List.mem_cons] at hp
        rcases hp with h1 | h2
        · subst h1; exact hra
        · exact hzip _ h2

/-- The teardown loop never reads or writes the abort flag. -/
theorem runTeardown_aborted (env : Env) (l : List AutomationStep) (s : EngineState) :
    (AutomationFramework.runTeardown env l s).aborted = s.aborted := by
  induction l generalizing s with
  | nil => rfl
  | cons st rest ih =>
      unfold AutomationFramework.runTeardown
      rw [ih]
      exact executeStep_aborted env st s

/-- The optional-teardown wrapper still yields one result per entry of
the (possibly absent) teardown list. -/
theorem runTeardownOpt_record (env : Env) (td : Option (List AutomationStep))
    (s : EngineState) :
    ∃ rs : List StepResult,
      (AutomationFramework.runTeardownOpt env td s).stepResults = s.stepResults ++ rs ∧
      rs.length = (td.getD []).length ∧
      ∀ p ∈ rs.zip (td.getD []), p.1.action = p.2.action := by
  cases td with
  | none => exact ⟨[], by simp [AutomationFramework.runTeardownOpt], rfl, by simp⟩
  | some l =>
      cases l with
      | nil => exact ⟨[], by simp [AutomationFramework.runTeardownOpt], rfl, by simp⟩
      | cons t ts =>
          have h := runTeardown_record env (t :: ts) s
          simpa [AutomationFramework.runTeardownOpt] using h

theorem runTeardownOpt_aborted (env : Env) (td : Option (List AutomationStep))
    (s : EngineState) :
    (AutomationFramework.runTeardownOpt env td s).aborted = s.aborted := by
  cases td with
  | none => rfl
  | some l =>
      cases l with
      | nil => rfl
      | cons t ts => simpa [AutomationFramework.runTeardownOpt] using
          runTeardown_aborted env (t :: ts) s

theorem recordError_aborted (p : Except String Unit × EngineState) :
    (AutomationFramework.recordError p).aborted = p.2.aborted := by
  rcases p with ⟨r, s⟩
  cases r <;> rfl

/-- Variable-map preservation through a phase whose steps use no
variable-writing action. -/
theorem runPhase_vars (env : Env) (l : List AutomationStep) (s : EngineState)
    (h : ∀ st ∈ l, st.action ≠ "get_cvar" ∧ st.action ≠ "find_image" ∧
        st.action ≠ "set_variable") :
    (AutomationFramework.runPhase env l s).2.vars = s.vars := by
  induction l generalizing s with
  | nil => rfl
  | cons st rest ih =>
      have hst := h st (List.mem_cons_self st rest)
      have hv := executeStep_vars env st s hst.1 hst.2.1 hst.2.2
      cases hab : s.aborted with
      | true => rw [runPhase_of_aborted env _ s hab]
      | false =>
          rw [runPhase_cons env st rest s hab]
          rcases hstep : AutomationFramework.executeStep env st s with ⟨r1, s1⟩
          rw [hstep] at hv
          cases r1 with
          | error e => exact hv
          | ok r =>
              show (AutomationFramework.runPhase env rest s1).2.vars = s.vars
              rw [ih s1 (fun st' hm => h st' (List.mem_cons_of_mem st hm))]
              exact hv

theorem runTeardown_vars (env : Env) (l : List AutomationStep) (s : EngineState)
    (h : ∀ st ∈ l, st.action ≠ "get_cvar" ∧ st.action ≠ "find_image" ∧
        st.action ≠ "set_variable") :
    (AutomationFramework.runTeardown env l s).vars = s.vars := by
  induction l generalizing s with
  | nil => rfl
  | cons st rest ih =>
      have hst := h st (List.mem_cons_self st rest)
      have hv := executeStep_vars env st s hst.1 hst.2.1 hst.2.2
      unfold AutomationFramework.runTeardown
      rw [ih _ (fun st' hm => h st' (List.mem_cons_of_mem st hm))]
      exact hv

theorem recordError_vars (p : Except String Unit × EngineState) :
    (AutomationFramework.recordError p).vars = p.2.vars := by
  rcases p with ⟨r, s⟩
  cases r <;> rfl

theorem runTeardownOpt_vars (env : Env) (td : Option (List AutomationStep))
    (s : EngineState)
    (h : ∀ st ∈ td.getD [], st.action ≠ "get_cvar" ∧ st.action ≠ "find_image" ∧
        st.action ≠ "set_variable") :
    (AutomationFramework.runTeardownOpt env td s).vars = s.vars := by
  cases td with
  | none => rfl
  | some l =>
      cases l with
      | nil => rfl
      | cons t ts =>
          simp only [Option.getD_some] at h
          simpa [AutomationFramework.runTeardownOpt] using
            runTeardown_vars env (t :: ts) s h

theorem runBody_vars (env : Env) (script : AutomationScript) (s : EngineState)
    (hsetup : ∀ st ∈ script.setup.getD [], st.action ≠ "get_cvar" ∧
        st.action ≠ "find_image" ∧ st.action ≠ "set_variable")
    (hmain : ∀ st ∈ script.steps, st.action ≠ "get_cvar" ∧
        st.action ≠ "find_image" ∧ st.action ≠ "set_variable") :
    (AutomationFramework.runBody env script s).2.vars = s.vars := by
  unfold AutomationFramework.runBody
  dsimp only
  cases hs : script.setup with
  | none =>
      dsimp only
      split
      · exact runPhase_vars env script.steps s hmain
      · rfl
  | some setup =>
      rw [hs] at hsetup
      simp only [Option.getD_some] at hsetup
      have hv : (if 0 < setup.length then AutomationFramework.runPhase env setup s
          else (Except.ok (), s)).2.vars = s.vars := by
        split
        · exact runPhase_vars env setup s hsetup
        · rfl
      dsimp only
      split
      next u s1 heq =>
          rw [heq] at hv
          show (if !s1.aborted then AutomationFramework.runPhase env script.steps s1
              else (.ok (), s1)).2.vars = s.vars
          split
          · rw [runPhase_vars env script.steps s1 hmain]; exact hv
          · exact hv
      next e s1 heq =>
          rw [heq] at hv
          exact hv

/-- All steps of a script, in execution order. -/
def AutomationScript.allSteps (script : AutomationScript) : List AutomationStep :=
  script.setup.getD [] ++ script.steps ++ script.teardown.getD []

/-- `runScript` never writes the `variables` map unless one of its
steps' actions instructs it to. -/
theorem runScript_vars (env : Env) (script : AutomationScript) (s0 : EngineState)
    (h : ∀ st ∈ script.allSteps, st.action ≠ "get_cvar" ∧
        st.action ≠ "find_image" ∧ st.action ≠ "set_variable") :
    (AutomationFramework.runScript env script s0).2.vars = s0.vars := by
  have hsetup : ∀ st ∈ script.setup.getD [], st.action ≠ "get_cvar" ∧
      st.action ≠ "find_image" ∧ st.action ≠ "set_variable" := by
    intro st hm
    refine h st ?_
    simp only [AutomationScript.allSteps, List.mem_append]
    tauto
  have hmain : ∀ st ∈ script.steps, st.action ≠ "get_cvar" ∧
      st.action ≠ "find_image" ∧ st.action ≠ "set_variable" := by
    intro st hm
    refine h st ?_
    simp only [AutomationScript.allSteps, List.mem_append]
    tauto
  have htd : ∀ st ∈ script.teardown.getD [], st.action ≠ "get_cvar" ∧
      st.action ≠ "find_image" ∧ st.action ≠ "set_variable" := by
    intro st hm
    refine h st ?_
    simp only [AutomationScript.allSteps, List.mem_append]
    tauto
  unfold AutomationFramework.runScript
  dsimp only
  unfold AutomationFramework.runPhases
  rw [runTeardownOpt_vars env script.teardown _ htd, recordError_vars,
      runBody_vars env script _ hsetup hmain]

/-! ## Concrete fixtures for witnesses -/

/-- A no-frills fake collaborator: every call succeeds instantly,
every search comes back empty, no pixel is ever sampled. -/
def envD : Env where
  primDur := fun _ => 0
  launch := fun _ _ => .ok ()
  stop := fun _ => .ok ()
  restart := fun _ => .ok ()
  forceKill := fun _ => .ok ()
  isRunning := fun _ => true
  searchConsole := fun _ _ _ => 0
  waitForConsolePattern := fun _ _ _ => none
  sendCommand := fun _ _ => .ok ()
  setCvar := fun _ _ _ => .ok ()
  getCvar := fun _ _ => none
  loadMap := fun _ _ => .ok ()
  execConfig := fun _ _ => .ok ()
  moveMouse := fun _ _ _ => .ok ()
  moveMouseRelative := fun _ _ _ => .ok ()
  moveMouseToWindow := fun _ _ _ => .ok ()
  clickMouse := fun _ _ => .ok ()
  clickAt := fun _ _ _ _ => .ok ()
  doubleClick := fun _ _ => .ok ()
  drag := fun _ _ _ _ _ _ => .ok ()
  scroll := fun _ _ _ => .ok ()
  typeText := fun _ _ _ => .ok ()
  pressKey := fun _ _ => .ok ()
  pressKeyWithModifiers := fun _ _ _ => .ok ()
  sendKeyCombo := fun _ _ => .ok ()
  toggleConsole := fun _ => .ok ()
  focusWindow := fun _ => .ok ()
  findWindow := fun _ _ => none
  saveScreenshot := fun _ _ => true
  getPixelColor := fun _ _ _ => none
  findImage := fun _ _ _ _ => ⟨false, 0, 0, 0⟩

/-- The fake collaborator with a fixed sampled pixel colour. -/
def envPix : Env :=
  { envD with getPixelColor := fun _ _ _ => some ⟨100, 120, 140⟩ }

/-- A freshly constructed engine instance. -/
def initState : EngineState where
  running := false
  aborted := false
  stepResults := []
  vars := fun _ => .vUndefined
  time := 0
  ncalls := 0

/-- A step that always succeeds against `envD`. -/
def waitStep : AutomationStep := { action := "wait", params := [("ms", .vNum 10)] }

/-- A step that throws against a fresh variables map: `assert` on an
unset variable. -/
def badAssertStep : AutomationStep :=
  { action := "assert", params := [("variable", .vStr "k"), ("expected", .vStr "v")] }

/-- The message `badAssertStep` throws against a fresh variables map. -/
def badAssertMsg : String :=
  jsError "Assertion failed: k = undefined, expected v"

/-- A teardown step (a `log` is a pure no-op at the engine level). -/
def logStep : AutomationStep := { action := "log", params := [] }

/-! ## The claims -/

/-- C1: for every script (and every collaborator behaviour, including
behaviours that make setup, main or teardown steps throw, and every
starting state), the `TestResult` returned by `runScript` ends with
exactly one `StepResult` per teardown entry, in order — so every
teardown entry executed, a throwing teardown entry is recorded in its
own `StepResult` and never prevents the next entry from running. -/
theorem claim_C1_teardown_always_runs (env : Env) (script : AutomationScript)
    (s0 : EngineState) :
    ∃ (pre rs : List StepResult),
      (AutomationFramework.runScript env script s0).1.steps = pre ++ rs ∧
      rs.length = (script.teardown.getD []).length ∧
      ∀ p ∈ rs.zip (script.teardown.getD []), p.1.action = p.2.action := by
  unfold AutomationFramework.runScript
  dsimp only
  unfold AutomationFramework.runPhases
  obtain ⟨rs, hrs, hlen, hzip⟩ := runTeardownOpt_record env script.teardown
    (AutomationFramework.recordError (AutomationFramework.runBody env script
      { s0 with running := true, aborted := false, stepResults := [] }))
  exact ⟨_, rs, hrs, hlen, hzip⟩

/-- C4: with the abort flag set before a phase starts, a `setup`/`steps`
phase loop executes zero entries and leaves the state untouched (the
flag is checked before the first not-yet-started entry, and no
collaborator call is made), while the teardown phase still produces one
`StepResult` per entry — the abort flag is never consulted there. -/
theorem claim_C4_abort_skips_phase_not_teardown (env : Env)
    (steps : List AutomationStep) (td : Option (List AutomationStep))
    (s : EngineState) (h : s.aborted = true) :
    AutomationFramework.runPhase env steps s = (.ok (), s) ∧
    ∃ rs : List StepResult,
      (AutomationFramework.runTeardownOpt env td s).stepResults = s.stepResults ++ rs ∧
      rs.length = (td.getD []).length ∧
      ∀ p ∈ rs.zip (td.getD []), p.1.action = p.2.action :=
  ⟨runPhase_of_aborted env steps s h, runTeardownOpt_record env td s⟩

theorem claim_C4_witness :
    AutomationFramework.runPhase envD [waitStep, badAssertStep]
        (AutomationFramework.abort initState)
      = (.ok (), AutomationFramework.abort initState) :=
  (claim_C4_abort_skips_phase_not_teardown envD [waitStep, badAssertStep]
    (some [logStep, waitStep]) (AutomationFramework.abort initState) rfl).1

/-- C8: `checkCondition` holds for every `timeout` condition regardless
of its parameters (without touching the state or calling any
collaborator), and fails for every condition whose type tag is not one
of the five recognized kinds. -/
theorem claim_C8_timeout_true_unknown_false (env : Env) (s : EngineState) :
    (∀ (p : Params) (t : ℚ),
      AutomationFramework.checkCondition env ⟨"timeout", p, t⟩ s = (true, s)) ∧
    (∀ c : WaitCondition,
      c.ctype ∉ (["console_pattern", "pixel_color", "cvar_value", "window_exists",
        "timeout"] : List String) →
      AutomationFramework.checkCondition env c s = (false, s)) := by
  constructor
  · intro p t
    rfl
  · intro c hc
    unfold AutomationFramework.checkCondition
    split <;> simp_all

theorem claim_C8_witness :
    AutomationFramework.checkCondition envD ⟨"timeout", [("junk", .vNum 3)], 5⟩ initState
      = (true, initState) ∧
    AutomationFramework.checkCondition envD ⟨"almost_timeout", [], 5⟩ initState
      = (false, initState) :=
  ⟨(claim_C8_timeout_true_unknown_false envD initState).1 [("junk", .vNum 3)] 5,
   (claim_C8_timeout_true_unknown_false envD initState).2 ⟨"almost_timeout", [], 5⟩
     (by decide)⟩

/-- C3: `runScript` is total (it returns a `TestResult` for every input —
every exception path inside the phases is caught, as the definition's
type already shows); the returned `steps` are exactly the recorded
`stepResults`; `passed` is `true` iff every recorded `StepResult` —
teardown records and the synthetic `"error"` record included —
succeeded; and a script recording no results at all passes. -/
theorem claim_C3_passed_iff_all_success (env : Env) (script : AutomationScript)
    (s0 : EngineState) :
    ((AutomationFramework.runScript env script s0).1.steps
      = (AutomationFramework.runScript env script s0).2.stepResults) ∧
    ((AutomationFramework.runScript env script s0).1.passed = true ↔
      ∀ r ∈ (AutomationFramework.runScript env script s0).1.steps, r.success = true) ∧
    (script.steps = [] → script.setup = none → script.teardown = none →
      (AutomationFramework.runScript env script s0).1.passed = true ∧
      (AutomationFramework.runScript env script s0).1.steps = []) := by
  refine ⟨rfl, ?_, ?_⟩
  · unfold AutomationFramework.runScript
    dsimp only
    exact List.all_eq_true
  · intro h1 h2 h3
    rcases script with ⟨nm, ds, su, stp, td⟩
    dsimp only at h1 h2 h3
    subst h1 h2 h3
    exact ⟨rfl, rfl⟩

theorem claim_C3_witness :
    (AutomationFramework.runScript envD { name := "t", steps := [] } initState).1.passed
      = true ∧
    (AutomationFramework.runScript envD { name := "t", steps := [] } initState).1.steps
      = [] :=
  (claim_C3_passed_iff_all_success envD { name := "t", steps := [] } initState).2.2
    rfl rfl rfl

/-- C9: the `variables` map is engine-instance-scoped: a value written by
`setVariable` is read back unchanged by `getVariable` after a later
`runScript` on the same instance, provided no step of that script uses a
variable-writing action (`get_cvar` with `storeAs`, `find_image` with
`storeX`/`storeY`, `set_variable`) — `runScript` itself never clears or
rewrites the map — and `clearVariables` removes every entry, after which
`getVariable` returns `undefined`. -/
theorem claim_C9_variables_engine_scoped (env : Env) (script : AutomationScript)
    (s : EngineState) (n : String) (v : Value)
    (h : ∀ st ∈ script.allSteps, st.action ≠ "get_cvar" ∧
        st.action ≠ "find_image" ∧ st.action ≠ "set_variable") :
    AutomationFramework.getVariable
      (AutomationFramework.runScript env script
        (AutomationFramework.setVariable s n v)).2 n = v ∧
    (∀ (s' : EngineState) (m : String),
      AutomationFramework.getVariable (AutomationFramework.clearVariables s') m
        = .vUndefined) := by
  constructor
  · show (AutomationFramework.runScript env script
        (AutomationFramework.setVariable s n v)).2.vars n = v
    rw [runScript_vars env script _ h]
    show (setVarKey s n v).vars n = v
    simp [setVarKey]
  · intro s' m
    rfl

theorem claim_C9_witness :
    AutomationFramework.getVariable
      (AutomationFramework.runScript envD { name := "w", steps := [waitStep] }
        (AutomationFramework.setVariable initState "x" (.vNum 5))).2 "x" = .vNum 5 ∧
    AutomationFramework.getVariable (AutomationFramework.clearVariables
      (AutomationFramework.setVariable initState "x" (.vNum 5))) "x" = .vUndefined :=
  ⟨(claim_C9_variables_engine_scoped envD { name := "w", steps := [waitStep] }
      initState "x" (.vNum 5) (by decide)).1,
   (claim_C9_variables_engine_scoped envD { name := "w", steps := [waitStep] }
      initState "x" (.vNum 5) (by decide)).2
     (AutomationFramework.setVariable initState "x" (.vNum 5)) "x"⟩

/-- The engine's action vocabulary: the `case` labels of
`executeAction`. -/
def knownActions : List String :=
  ["launch", "stop", "restart", "kill", "command", "set_cvar", "get_cvar",
   "load_map", "exec_config", "mouse_move", "mouse_click", "double_click",
   "drag", "scroll", "type", "press_key", "key_combo", "toggle_console",
   "focus_window", "screenshot", "check_pixel", "find_image", "wait",
   "wait_for_console", "wait_for_pixel", "wait_for_image", "assert",
   "assert_running", "assert_not_running", "set_variable", "log"]

/-- C5: `executeStep` (1) dispatches the action tag first, and a tag
outside the vocabulary makes the action throw `Unknown action` leaving
the state untouched; (2) when the action throws, the step result is
fully determined by the action alone — the same for every `waitAfter`
and `condition` value, so neither the delay nor the condition wait runs —
and the error propagates with the failure recorded; (3) when the action
succeeds, the engine applies the `waitAfter` delay and only then runs
the condition wait on the delayed state. -/
theorem claim_C5_dispatch_then_delay_then_condition (env : Env) (s : EngineState) :
    (∀ (a : String) (p : Params), a ∉ knownActions →
      AutomationFramework.executeAction env a p s
        = (.error (jsError ("Unknown action: " ++ a)), s)) ∧
    (∀ (step : AutomationStep) (e : String),
      (AutomationFramework.executeAction env step.action step.params s).1 = .error e →
      ∀ (w : Option ℚ) (c : Option WaitCondition),
        AutomationFramework.executeStep env
            { step with waitAfter := w, condition := c } s =
          (.error e,
           { (AutomationFramework.executeAction env step.action step.params s).2 with
             stepResults :=
               (AutomationFramework.executeAction env step.action step.params s).2.stepResults
                 ++ [{ action := step.action, success := false,
                       duration := (AutomationFramework.executeAction env step.action
                         step.params s).2.time - s.time,
                       error := some e }] })) ∧
    (∀ (a : String) (p : Params) (t : Option ℚ) (w : ℚ) (c : WaitCondition),
      w ≠ 0 →
      (AutomationFramework.executeAction env a p s).1 = .ok () →
      AutomationFramework.executeStep env
          { action := a, params := p, timeout := t, waitAfter := some w,
            condition := some c } s =
        (let m := AutomationFramework.waitForCondition env c
            (delay (⌊w⌋).toNat (AutomationFramework.executeAction env a p s).2)
         if m.1 then
           (.ok { action := a, success := true, duration := m.2.time - s.time },
            { m.2 with stepResults := m.2.stepResults ++
                [{ action := a, success := true, duration := m.2.time - s.time }] })
         else
           (.error (AutomationFramework.condNotMet c),
            { m.2 with stepResults := m.2.stepResults ++
                [{ action := a, success := false, duration := m.2.time - s.time,
                   error := some (AutomationFramework.condNotMet c) }] }))) := by
  refine ⟨?_, ?_, ?_⟩
  · intro a p ha
    unfold AutomationFramework.executeAction
    split <;> first | rfl | simp_all [knownActions]
  · intro step e h w c
    unfold AutomationFramework.executeStep
    dsimp only
    rcases hq : AutomationFramework.executeAction env step.action step.params s with ⟨r1, s1⟩
    try rw [hq] at h
    try rw [hq]
    cases r1 with
    | ok u => simp at h
    | error e1 =>
        have he : e1 = e := by simpa using h
        subst he
        rfl
  · intro a p t w c hw hok
    unfold AutomationFramework.executeStep
    dsimp only
    rcases hq : AutomationFramework.executeAction env a p s with ⟨r1, s1⟩
    try rw [hq] at hok
    try rw [hq]
    cases r1 with
    | error e1 => simp at hok
    | ok u =>
        cases u
        dsimp only
        rw [if_pos hw]

/-- A step that fails its `assert` and also carries a delay and a
condition (used to show neither runs on the failure path). -/
def c5step : AutomationStep :=
  { badAssertStep with
    waitAfter := some 500
    condition := some { ctype := "timeout", params := [], timeout := 1 } }

theorem claim_C5_witness :
    AutomationFramework.executeAction envD "explode" [] initState
      = (.error (jsError "Unknown action: explode"), initState) ∧
    AutomationFramework.executeStep envD c5step initState =
      (.error badAssertMsg,
       { (AutomationFramework.executeAction envD badAssertStep.action
            badAssertStep.params initState).2 with
         stepResults :=
           (AutomationFramework.executeAction envD badAssertStep.action
              badAssertStep.params initState).2.stepResults
             ++ [{ action := badAssertStep.action, success := false,
                   duration := (AutomationFramework.executeAction envD
                     badAssertStep.action badAssertStep.params initState).2.time - initState.time,
                   error := some badAssertMsg }] }) :=
  ⟨(claim_C5_dispatch_then_delay_then_condition envD initState).1 "explode" [] (by decide),
   (claim_C5_dispatch_then_delay_then_condition envD initState).2.1 badAssertStep
     badAssertMsg rfl (some 500)
     (some { ctype := "timeout", params := [], timeout := 1 })⟩

/-- C7: for a `pixel_color` condition whose pixel sample succeeds,
`checkCondition` holds exactly when all three per-channel absolute
differences are within the tolerance (an independent Chebyshev-style
bound, not a Euclidean distance), with the tolerance defaulting to 10
per channel when the parameter is absent. -/
theorem claim_C7_pixel_color_chebyshev (env : Env) (c : WaitCondition)
    (s : EngineState) (er eg eb : ℚ) (a : PixelColor)
    (hc : c.ctype = "pixel_color")
    (hexp : getP c.params "expected" = .vColor er eg eb)
    (hpix : env.getPixelColor s.ncalls (getP c.params "x") (getP c.params "y")
      = some a) :
    (∀ tol : ℚ, getP c.params "tolerance" = .vNum tol → tol ≠ 0 →
      ((AutomationFramework.checkCondition env c s).1 = true ↔
        (|a.r - er| ≤ tol ∧ |a.g - eg| ≤ tol ∧ |a.b - eb| ≤ tol))) ∧
    (getP c.params "tolerance" = .vUndefined →
      ((AutomationFramework.checkCondition env c s).1 = true ↔
        (|a.r - er| ≤ 10 ∧ |a.g - eg| ≤ 10 ∧ |a.b - eb| ≤ 10))) := by
  constructor
  · intro tol htol htol0
    unfold AutomationFramework.checkCondition
    rw [hc]
    unfold ScreenCapture.checkPixelColor
    rw [hpix, hexp, htol]
    simp [Value.orJs, Value.truthy, Value.toNumQ, htol0]
  · intro htol
    unfold AutomationFramework.checkCondition
    rw [hc]
    unfold ScreenCapture.checkPixelColor
    rw [hpix, hexp, htol]
    simp [Value.orJs, Value.truthy, Value.toNumQ]

theorem claim_C7_witness :
    ((AutomationFramework.checkCondition envPix
        ⟨"pixel_color", [("x", .vNum 1), ("y", .vNum 2),
          ("expected", .vColor 111 120 140), ("tolerance", .vNum 10)], 1000⟩
        initState).1 = true ↔
      (|(100 : ℚ) - 111| ≤ 10 ∧ |(120 : ℚ) - 120| ≤ 10 ∧ |(140 : ℚ) - 140| ≤ 10)) :=
  (claim_C7_pixel_color_chebyshev envPix
      ⟨"pixel_color", [("x", .vNum 1), ("y", .vNum 2),
        ("expected", .vColor 111 120 140), ("tolerance", .vNum 10)], 1000⟩
      initState 111 120 140 ⟨100, 120, 140⟩ rfl rfl rfl).1 10 rfl (by norm_num)

/-- Exit bounds for the condition-poll loop when the condition never
holds: it returns `false`, and the clock on exit lies in the window
`[start + timeout, start + timeout + 199 + D]` when the loop was
entered, where `D` bounds one condition check's duration. -/
theorem waitLoop_never_true (env : Env) (c : WaitCondition) (T start D : Nat)
    (hnever : ∀ s', (AutomationFramework.checkCondition env c s').1 = false)
    (hD : ∀ s', (AutomationFramework.checkCondition env c s').2.time ≤ s'.time + D)
    (s : EngineState) :
    (AutomationFramework.waitLoop env c T start s).1 = false ∧
    (s.time - start < T →
      start + T ≤ (AutomationFramework.waitLoop env c T start s).2.time ∧
      (AutomationFramework.waitLoop env c T start s).2.time ≤ start + T + 199 + D) ∧
    (¬ s.time - start < T → (AutomationFramework.waitLoop env c T start s).2 = s) := by
  induction s using AutomationFramework.waitLoop.induct env c T start with
  | case1 s h r hr =>
      have hr' : (AutomationFramework.checkCondition env c s).1 = true := hr
      rw [hnever s] at hr'
      exact (Bool.false_ne_true hr').elim
  | case2 s h r hr ih =>
      have hr' : (AutomationFramework.checkCondition env c s).1 = false :=
        Bool.eq_false_iff.mpr hr
      have hr2 : r.2 = (AutomationFramework.checkCondition env c s).2 := rfl
      rw [AutomationFramework.waitLoop]
      simp only [h, if_pos, hr', Bool.false_eq_true, if_false]
      rw [hr2] at ih
      obtain ⟨ih1, ih2, ih3⟩ := ih
      have hck : s.time ≤ (AutomationFramework.checkCondition env c s).2.time :=
        AutomationFramework.checkCondition_time env c s
      have hDx := hD s
      have hdt : (delay 200 (AutomationFramework.checkCondition env c s).2).time
          = (AutomationFramework.checkCondition env c s).2.time + 200 := rfl
      refine ⟨ih1, ?_, ?_⟩
      · intro _
        by_cases h2 : (delay 200 (AutomationFramework.checkCondition env c s).2).time
            - start < T
        · exact ih2 h2
        · rw [ih3 h2]
          omega
      · intro hnin
        exact (hnin trivial).elim
  | case3 s h =>
      rw [AutomationFramework.waitLoop]
      simp only [h, if_neg]
      exact ⟨rfl, fun hin => hin.elim, fun _ => rfl⟩

/-- C6: for a condition that never becomes true, `waitForCondition`
terminates and returns `false`; control comes back no earlier than the
condition's timeout and no later than the timeout plus one 200 ms poll
interval plus one condition check (whose duration is bounded by `D`) —
it never hangs.  A step gated by such a condition (after a successful
action, with no extra delay) then fails with the `Condition not met`
error. -/
theorem claim_C6_wait_for_condition_terminates (env : Env) (c : WaitCondition)
    (s : EngineState) (D : Nat)
    (hnever : ∀ s', (AutomationFramework.checkCondition env c s').1 = false)
    (hD : ∀ s', (AutomationFramework.checkCondition env c s').2.time ≤ s'.time + D) :
    (AutomationFramework.waitForCondition env c s).1 = false ∧
    s.time + AutomationFramework.condTimeout c
      ≤ (AutomationFramework.waitForCondition env c s).2.time ∧
    (AutomationFramework.waitForCondition env c s).2.time
      ≤ s.time + AutomationFramework.condTimeout c + 199 + D ∧
    (∀ step : AutomationStep, step.condition = some c → step.waitAfter = none →
      ∀ s1 : EngineState,
        (AutomationFramework.executeAction env step.action step.params s1).1 = .ok () →
        (AutomationFramework.executeStep env step s1).1
          = .error (AutomationFramework.condNotMet c)) := by
  obtain ⟨h1, h2, h3⟩ := waitLoop_never_true env c (AutomationFramework.condTimeout c)
    s.time D hnever hD s
  unfold AutomationFramework.waitForCondition
  refine ⟨h1, ?_, ?_, ?_⟩
  · by_cases h0 : 0 < AutomationFramework.condTimeout c
    · exact (h2 (by omega)).1
    · have hT : AutomationFramework.condTimeout c = 0 := by omega
      rw [h3 (by omega)]
      omega
  · by_cases h0 : 0 < AutomationFramework.condTimeout c
    · exact (h2 (by omega)).2
    · rw [h3 (by omega)]
      omega
  · intro step hcond hwa s1 hok
    unfold AutomationFramework.executeStep
    dsimp only
    rcases hq : AutomationFramework.executeAction env step.action step.params s1
      with ⟨r1, s2⟩
    try rw [hq] at hok
    cases r1 with
    | error e1 => simp at hok
    | ok u =>
        cases u
        dsimp only
        rw [hwa, hcond]
        dsimp only
        have hm := (waitLoop_never_true env c (AutomationFramework.condTimeout c)
          s2.time D hnever hD s2).1
        have hm' : (AutomationFramework.waitForCondition env c s2).1 = false := hm
        rw [hm']
        rfl

/-- A condition with an unrecognized tag: it never becomes true. -/
def neverCond : WaitCondition := { ctype := "never", params := [], timeout := 400 }

/-- A step whose action is a no-op and whose gate is `neverCond`. -/
def stepC6 : AutomationStep :=
  { action := "log", params := [], condition := some neverCond }

theorem claim_C6_witness :
    (AutomationFramework.waitForCondition envD neverCond initState).1 = false ∧
    initState.time + AutomationFramework.condTimeout neverCond
      ≤ (AutomationFramework.waitForCondition envD neverCond initState).2.time ∧
    (AutomationFramework.waitForCondition envD neverCond initState).2.time
      ≤ initState.time + AutomationFramework.condTimeout neverCond + 199 + 0 ∧
    (AutomationFramework.executeStep envD stepC6 initState).1
      = .error (AutomationFramework.condNotMet neverCond) :=
  have h := claim_C6_wait_for_condition_terminates envD neverCond initState 0
    (fun _ => rfl) (fun s' => Nat.le_add_right s'.time 0)
  ⟨h.1, h.2.1, h.2.2.1, h.2.2.2 stepC6 rfl rfl initState rfl⟩

/-- When the template matcher never finds the image, the
`waitForImage` polling loop times out with `found = false`. -/
theorem waitImageLoop_notfound (env : Env) (template threshold : Value)
    (T start : Nat)
    (hfind : ∀ (k : Nat) (t rg th : Value), (env.findImage k t rg th).found = false)
    (s : EngineState) :
    (ScreenCapture.waitImageLoop env template threshold T start s).1.found = false := by
  induction s using ScreenCapture.waitImageLoop.induct env template threshold T start with
  | case1 s h r hr =>
      have hr' : (env.findImage s.ncalls template Value.vUndefined threshold).found = true := hr
      rw [hfind] at hr'
      exact (Bool.false_ne_true hr').elim
  | case2 s h r s1 hr ih =>
      have hr' : (env.findImage s.ncalls template Value.vUndefined threshold).found = false :=
        Bool.eq_false_iff.mpr hr
      rw [ScreenCapture.waitImageLoop]
      simp only [h, if_pos, hr', Bool.false_eq_true, if_false]
      exact ih
  | case3 s h =>
      rw [ScreenCapture.waitImageLoop]
      simp [h]

/-- C10: the `wait_for_console` and `wait_for_pixel` actions discard the
collaborator's wait outcome and never throw, so such a step records
`success = true` even when the underlying wait times out with nothing
found (the fake environments are unconstrained, including ones that
never produce the pattern or pixel); among the wait actions only
`wait_for_image` fails the step: when the matcher never finds the
template, it throws `Image not found`. -/
theorem claim_C10_wait_outcomes_discarded (env : Env) (p : Params) (s : EngineState) :
    (AutomationFramework.executeAction env "wait_for_console" p s).1 = .ok () ∧
    (AutomationFramework.executeAction env "wait_for_pixel" p s).1 = .ok () ∧
    (∀ step : AutomationStep,
      (step.action = "wait_for_console" ∨ step.action = "wait_for_pixel") →
      step.condition = none →
      ∃ r : StepResult, (AutomationFramework.executeStep env step s).1 = .ok r ∧
        r.success = true) ∧
    ((∀ (k : Nat) (t rg th : Value), (env.findImage k t rg th).found = false) →
      (AutomationFramework.executeAction env "wait_for_image" p s).1
        = .error (jsError ("Image not found: " ++ (getP p "template").display))) := by
  refine ⟨rfl, rfl, ?_, ?_⟩
  · intro step hac hcond
    have hone : (AutomationFramework.executeAction env step.action step.params s).1
        = .ok () := by
      rcases hac with h | h <;> rw [h] <;> rfl
    unfold AutomationFramework.executeStep
    dsimp only
    rcases hq : AutomationFramework.executeAction env step.action step.params s
      with ⟨r1, s1⟩
    try rw [hq] at hone
    cases r1 with
    | error e1 => simp at hone
    | ok u =>
        cases u
        dsimp only
        rw [hcond]
        cases step.waitAfter with
        | none => exact ⟨_, rfl, rfl⟩
        | some w => exact ⟨_, rfl, rfl⟩
  · intro hfind
    have hnf : (ScreenCapture.waitForImage env (getP p "template")
        (toTimeoutNat ((getP p "timeout").orJs (.vNum 30000)))
        ((getP p "threshold").orJs (.vNum 0.9)) s).1.found = false := by
      unfold ScreenCapture.waitForImage
      exact waitImageLoop_notfound env (getP p "template")
        ((getP p "threshold").orJs (.vNum 0.9))
        (toTimeoutNat ((getP p "timeout").orJs (.vNum 30000))) s.time hfind s
    have hred : AutomationFramework.executeAction env "wait_for_image" p s
        = (let r := ScreenCapture.waitForImage env (getP p "template")
              (toTimeoutNat ((getP p "timeout").orJs (.vNum 30000)))
              ((getP p "threshold").orJs (.vNum 0.9)) s
           if !r.1.found then
             (.error (jsError ("Image not found: " ++ (getP p "template").display)), r.2)
           else (.ok (), r.2)) := rfl
    rw [hred]
    dsimp only
    rw [hnf]
    rfl

/-- A `wait_for_pixel` step against a collaborator that never produces
the pixel. -/
def stepC10 : AutomationStep := { action := "wait_for_pixel", params := [] }

theorem claim_C10_witness :
    (AutomationFramework.executeAction envD "wait_for_console" [] initState).1
      = .ok () ∧
    (∃ r : StepResult, (AutomationFramework.executeStep envD stepC10 initState).1
      = .ok r ∧ r.success = true) ∧
    (AutomationFramework.executeAction envD "wait_for_image" [] initState).1
      = .error (jsError ("Image not found: " ++ (getP [] "template").display)) :=
  have h := claim_C10_wait_outcomes_discarded envD [] initState
  ⟨h.1, h.2.2.1 stepC10 (Or.inr rfl) rfl, h.2.2.2 (fun _ _ _ _ => rfl)⟩

/-- The per-run state reset at the top of `runScript`
(script-validator.ts, lines 354-357): `variables` is deliberately left
alone. -/
def initRun (s : EngineState) : EngineState :=
  { s with running := true, aborted := false, stepResults := [] }

/-- A phase whose prefix succeeds and whose next entry throws stops at
that entry, whatever comes after it. -/
theorem runPhase_error_at (env : Env) (pre : List AutomationStep)
    (bad : AutomationStep) (post : List AutomationStep) (s : EngineState)
    (e : String) (hab : s.aborted = false)
    (hpre : (AutomationFramework.runPhase env pre s).1 = .ok ())
    (hbad : (AutomationFramework.executeStep env bad
      (AutomationFramework.runPhase env pre s).2).1 = .error e) :
    AutomationFramework.runPhase env (pre ++ bad :: post) s =
      (.error e, (AutomationFramework.executeStep env bad
        (AutomationFramework.runPhase env pre s).2).2) := by
  rw [runPhase_append env pre (bad :: post) s hab hpre]
  have hab1 : (AutomationFramework.runPhase env pre s).2.aborted = false := by
    rw [runPhase_aborted]; exact hab
  rw [runPhase_cons env bad post _ hab1]
  rcases hq : AutomationFramework.executeStep env bad
      (AutomationFramework.runPhase env pre s).2 with ⟨r1, s2⟩
  try rw [hq] at hbad
  try rw [hq]
  cases r1 with
  | ok r => simp at hbad
  | error e1 =>
      have he : e1 = e := by simpa using hbad
      subst he
      rfl

/-- When the `try` body of `runScript` throws `e`, the returned result
list is the body's records, then the synthetic `"error"` record carrying
`e`, then one record per teardown entry. -/
theorem runScript_error_shape (env : Env) (script : AutomationScript)
    (s : EngineState) (e : String) (s2 : EngineState)
    (hbody : AutomationFramework.runBody env script (initRun s) = (.error e, s2)) :
    ∃ rs : List StepResult,
      (AutomationFramework.runScript env script s).1.steps
        = s2.stepResults
          ++ [{ action := "error", success := false, duration := 0, error := some e }]
          ++ rs ∧
      rs.length = (script.teardown.getD []).length ∧
      ∀ q ∈ rs.zip (script.teardown.getD []), q.1.action = q.2.action := by
  unfold AutomationFramework.runScript
  dsimp only
  unfold AutomationFramework.runPhases
  have hinit : ({ s with running := true, aborted := false, stepResults := [] }
      : EngineState) = initRun s := rfl
  rw [hinit, hbody]
  obtain ⟨rs, hrs, hlen, hzip⟩ := runTeardownOpt_record env script.teardown
    (AutomationFramework.recordError (.error e, s2))
  refine ⟨rs, ?_, hlen, hzip⟩
  rw [hrs]
  rfl

/-- C2: when a `setup` or `steps` entry throws, the phase stops at that
entry (the result is the same whatever entries follow it), the
triggering error is recorded as a synthetic StepResult with action
`"error"` and `success = false`, and control falls through to teardown,
which still contributes one record per entry. -/
theorem claim_C2_failure_stops_phase (env : Env) (script : AutomationScript)
    (s : EngineState) (pre post : List AutomationStep) (bad : AutomationStep)
    (e : String) :
    (script.setup = none →
      script.steps = pre ++ bad :: post →
      (AutomationFramework.runPhase env pre (initRun s)).1 = .ok () →
      (AutomationFramework.executeStep env bad
        (AutomationFramework.runPhase env pre (initRun s)).2).1 = .error e →
      ∃ rs : List StepResult,
        (AutomationFramework.runScript env script s).1.steps
          = (AutomationFramework.executeStep env bad
              (AutomationFramework.runPhase env pre (initRun s)).2).2.stepResults
            ++ [{ action := "error", success := false, duration := 0,
                  error := some e }]
            ++ rs ∧
        rs.length = (script.teardown.getD []).length ∧
        ∀ q ∈ rs.zip (script.teardown.getD []), q.1.action = q.2.action) ∧
    (script.setup = some (pre ++ bad :: post) →
      (AutomationFramework.runPhase env pre (initRun s)).1 = .ok () →
      (AutomationFramework.executeStep env bad
        (AutomationFramework.runPhase env pre (initRun s)).2).1 = .error e →
      ∃ rs : List StepResult,
        (AutomationFramework.runScript env script s).1.steps
          = (AutomationFramework.executeStep env bad
              (AutomationFramework.runPhase env pre (initRun s)).2).2.stepResults
            ++ [{ action := "error", success := false, duration := 0,
                  error := some e }]
            ++ rs ∧
        rs.length = (script.teardown.getD []).length ∧
        ∀ q ∈ rs.zip (script.teardown.getD []), q.1.action = q.2.action) := by
  constructor
  · intro hsetup hsteps hpre hbad
    apply runScript_error_shape
    unfold AutomationFramework.runBody
    rw [hsetup]
    dsimp only
    have hab : (initRun s).aborted = false := rfl
    rw [hab]
    simp only [Bool.not_false]
    rw [if_pos trivial, hsteps]
    exact runPhase_error_at env pre bad post (initRun s) e rfl hpre hbad
  · intro hsetup hpre hbad
    apply runScript_error_shape
    unfold AutomationFramework.runBody
    rw [hsetup]
    dsimp only
    have hlen : 0 < (pre ++ bad :: post).length := by simp
    rw [if_pos hlen]
    rw [runPhase_error_at env pre bad post (initRun s) e rfl hpre hbad]

/-- A two-step script whose first main step throws, with teardown. -/
def scriptC2 : AutomationScript :=
  { name := "t", steps := [badAssertStep, waitStep], teardown := some [logStep] }

theorem claim_C2_witness :
    ∃ rs : List StepResult,
      (AutomationFramework.runScript envD scriptC2 initState).1.steps
        = (AutomationFramework.executeStep envD badAssertStep
            (AutomationFramework.runPhase envD [] (initRun initState)).2).2.stepResults
          ++ [{ action := "error", success := false, duration := 0,
                error := some badAssertMsg }]
          ++ rs ∧
      rs.length = (scriptC2.teardown.getD []).length ∧
      ∀ q ∈ rs.zip (scriptC2.teardown.getD []), q.1.action = q.2.action :=
  (claim_C2_failure_stops_phase envD scriptC2 initState [] [waitStep] badAssertStep
    badAssertMsg).1 rfl rfl rfl rfl
